import Mathlib

/-!
Verification of the quickstart tutorial scripts: a shallow embedding of
the repository's own code (the custom dataset class, the training and
evaluation loops, the save/load calls, the manual gradient-descent loop
and the Jacobian-product example) together with proofs about it.

Framework primitives that the scripts call (CSV reading, image loading,
parameter serialization, backward propagation) are modelled by explicit
functions over simple state types; the scripts' own lines are translated
one for one.
-/

/-! ## Data model for the custom dataset (dataquickstart_tutorial.py) -/

/-- A parsed CSV table: a list of rows, each row a list of string cells.
This is what `pd.read_csv` produces, as far as the script uses it
(`len`, `iloc[idx, 0]`, `iloc[idx, 1:]`). -/
structure CSV where
  rows : List (List String)
deriving DecidableEq

/-- An image as loaded by `torchvision.io.read_image`: pixel rows. -/
structure PyImage where
  pixels : List (List ℚ)
deriving DecidableEq

/-- The sample dictionary `{"image": image, "label": label}` built by
`__getitem__`. -/
structure Sample where
  image : PyImage
  label : List String
deriving DecidableEq

/-- Exceptions raised by the framework calls the scripts make. -/
inductive PyError where
  | attributeError (obj : String) (attr : String)
  | fileNotFound (path : String)
  | indexError
  | csvReadError (msg : String)
deriving DecidableEq

/-- A directory of image files: maps a path to the image stored there,
`none` when no such file exists. -/
def ImageFS : Type := String → Option PyImage

/-- `os.path.join` for the two-component case the script uses. -/
def os_path_join (a b : String) : String :=
  if a = "" then b else a ++ "/" ++ b

/-- `torchvision.io.read_image`: returns the image at `path`, or raises
when the file is missing. -/
def read_image (fs : ImageFS) (path : String) : Except PyError PyImage :=
  match fs path with
  | some img => Except.ok img
  | none => Except.error (PyError.fileNotFound path)

/-- `df.iloc[idx]` row access on the parsed CSV: the row at `idx`, or an
IndexError when out of range. -/
def CSV.ilocRow (c : CSV) (idx : Nat) : Except PyError (List String) :=
  match c.rows.get? idx with
  | some r => Except.ok r
  | none => Except.error PyError.indexError

/-- The `CustomImageDataset` object. `__init__` assigns exactly the three
attributes `img_labels`, `img_dir` and `transform`; Python objects hold
attributes dynamically, so the slot `root_dir` (read by `__getitem__` but
never assigned by `__init__`) is modelled as an `Option` that records
whether that attribute exists on the object. -/
structure CustomImageDataset where
  img_labels : CSV
  img_dir : String
  transform : Option (Sample → Sample)
  root_dir : Option String

/-- `CustomImageDataset.__init__(self, annotations_file, img_dir, transform=None)`:
stores the parsed CSV in `img_labels`, the directory in `img_dir` and the
optional transform; it assigns nothing else, so the `root_dir` slot stays
absent. -/
def CustomImageDataset.init (labels : CSV) (img_dir : String)
    (transform : Option (Sample → Sample)) : CustomImageDataset :=
  ⟨labels, img_dir, transform, none⟩

/-- `__init__` as run against the outcome of `pd.read_csv(annotations_file)`:
the read may itself fail, and the constructor body does not catch that. -/
def CustomImageDataset.initFrom (csvResult : Except PyError CSV)
    (img_dir : String) (transform : Option (Sample → Sample)) :
    Except PyError CustomImageDataset := do
  let labels ← csvResult
  return CustomImageDataset.init labels img_dir transform

/-- Python attribute lookup `self.root_dir`: raises AttributeError when the
slot was never assigned. -/
def CustomImageDataset.getRootDir (self : CustomImageDataset) :
    Except PyError String :=
  match self.root_dir with
  | some d => Except.ok d
  | none => Except.error (PyError.attributeError "CustomImageDataset" "root_dir")

/-- First cell of a CSV row (`iloc[idx, 0]`). -/
def rowCell0 (row : List String) : Except PyError String :=
  match row.get? 0 with
  | some c => Except.ok c
  | none => Except.error PyError.indexError

/-- `CustomImageDataset.__getitem__(self, idx)`, line for line (the
`torch.is_tensor(idx)` branch only normalizes a tensor index to a plain
one, which `idx : Nat` already is):
`img_path = os.path.join(self.root_dir, self.img_labels.iloc[idx, 0])`,
then `image = read_image(img_path)`,
then `label = self.img_labels.iloc[idx, 1:]`,
then the sample dictionary, transformed when a transform was given.
Python evaluates `self.root_dir` first, so a missing attribute raises
before anything else runs. -/
def CustomImageDataset.getitem (fs : ImageFS) (self : CustomImageDataset)
    (idx : Nat) : Except PyError Sample := do
  let root ← self.getRootDir
  let row ← self.img_labels.ilocRow idx
  let cell ← rowCell0 row
  let img_path := os_path_join root cell
  let image ← read_image fs img_path
  let label := row.drop 1
  let sample : Sample := ⟨image, label⟩
  return (match self.transform with
    | some t => t sample
    | none => sample)

/-- `CustomImageDataset.__len__`. -/
def CustomImageDataset.len (self : CustomImageDataset) : Nat :=
  self.img_labels.rows.length

/-! ## The manual gradient-descent loop (autograd_tutorial.py) -/

/-- State of the descent: the coordinate tensor `x` and its accumulated
gradient `x.grad` (autograd adds into `grad`; it does not overwrite). -/
structure GDState where
  x1 : ℚ
  x2 : ℚ
  g1 : ℚ
  g2 : ℚ
deriving DecidableEq

/-- The learning rate `lr = 0.1` of the script. -/
def gdLr : ℚ := 1 / 10

/-- `y = f(x); y.backward()` for `f = lambda x : (x - tensor([3, -2])).pow(2).sum()`:
autograd accumulates the gradient `2 * (x - (3, -2))` into `x.grad`. -/
def gdBackward (s : GDState) : GDState :=
  ⟨s.x1, s.x2, s.g1 + 2 * (s.x1 - 3), s.g2 + 2 * (s.x2 - (-2))⟩

/-- `gr = x.grad; x.data.add_(-lr * gr)`. -/
def gdUpdate (s : GDState) : GDState :=
  ⟨s.x1 - gdLr * s.g1, s.x2 - gdLr * s.g2, s.g1, s.g2⟩

/-- `x.grad.zero_()`. -/
def gdZeroGrad (s : GDState) : GDState :=
  ⟨s.x1, s.x2, 0, 0⟩

/-- One pass of the loop body `for i in range(15): ...`. -/
def gdLoopBody (s : GDState) : GDState :=
  gdZeroGrad (gdUpdate (gdBackward s))

/-- The state after `n` iterations, starting from
`x = torch.zeros(2, requires_grad=True)` (gradient initially zero). -/
def gdIter : Nat → GDState
  | 0 => ⟨0, 0, 0, 0⟩
  | n + 1 => gdLoopBody (gdIter n)

/-- The script runs `for i in range(15)`. -/
def gdNumIters : Nat := 15

/-- Squared distance of the current point to the minimum `(3, -2)`. -/
def gdSqDist (s : GDState) : ℚ :=
  (s.x1 - 3) ^ 2 + (s.x2 - (-2)) ^ 2

/-! ## The Jacobian-product example (autograd_tutorial.py) -/

/-- `inp = torch.eye(5, requires_grad=True)`. -/
def inpMat : Fin 5 → Fin 5 → ℚ :=
  fun i j => if i = j then 1 else 0

/-- `torch.ones_like(inp)`. -/
def onesMat : Fin 5 → Fin 5 → ℚ :=
  fun _ _ => 1

/-- `out = (inp + 1).pow(2)` acts elementwise, so its Jacobian is diagonal
with entry `2 * (inp + 1)` at each position. -/
def outDeriv : Fin 5 → Fin 5 → ℚ :=
  fun i j => 2 * (inpMat i j + 1)

/-- `out.backward(v, retain_graph=True)`: accumulates the vector-Jacobian
product `v * (d out / d inp)` into the existing gradient `g`. -/
def jacBackward (v : Fin 5 → Fin 5 → ℚ) (g : Fin 5 → Fin 5 → ℚ) :
    Fin 5 → Fin 5 → ℚ :=
  fun i j => g i j + v i j * outDeriv i j

/-- `inp.grad` after the first `out.backward(torch.ones_like(inp))` (the
gradient starts at zero). -/
def gradFirstCall : Fin 5 → Fin 5 → ℚ :=
  jacBackward onesMat (fun _ _ => 0)

/-- `inp.grad` after the second, identical `backward` call. -/
def gradSecondCall : Fin 5 → Fin 5 → ℚ :=
  jacBackward onesMat gradFirstCall

/-- `inp.grad` after `inp.grad.zero_()` followed by one more `backward`. -/
def gradAfterZero : Fin 5 → Fin 5 → ℚ :=
  jacBackward onesMat (fun _ _ => 0)

/-! ## The quickstart script's configuration and persisted writes
(quickstart_tutorial.py) -/

/-- The hard-coded constants the quickstart script runs with. -/
structure ScriptConfig where
  root : String
  batch_size : Nat
  lr : ℚ
  epochs : Nat
deriving DecidableEq

/-- The script's configuration as a function of command line and
environment: the source reads neither (`root="data"`, `batch_size = 64`,
`lr=1e-3`, `epochs = 5` are literals and no line touches `sys.argv` or
`os.environ`), so the result is those constants. -/
def quickstartConfig (argv : List String) (env : String → Option String) :
    ScriptConfig :=
  ⟨"data", 64, 1 / 1000, 5⟩

/-- Top-level statements of the quickstart script, abstracted to their
effect on the filesystem; computations and prints persist nothing. -/
inductive QStmt where
  | pure_step
  | fashionMNIST (root : String) (download : Bool)
  | torchSaveFile (file : String)
  | torchLoadFile (file : String)
deriving DecidableEq

/-- The quickstart script, statement by statement: imports and the class
list, the two `datasets.FashionMNIST(root="data", ..., download=True)`
constructions, dataloaders and shape prints, device and model setup, loss
and optimizer, the train/test definitions, the epoch loop (prints only),
`torch.save(model.state_dict(), "model.pth")`, the reload, and the final
prediction print. -/
def quickstartScript (c : ScriptConfig) : List QStmt :=
  [QStmt.pure_step,
   QStmt.fashionMNIST c.root true,
   QStmt.fashionMNIST c.root true,
   QStmt.pure_step,
   QStmt.pure_step,
   QStmt.pure_step,
   QStmt.pure_step,
   QStmt.torchSaveFile "model.pth",
   QStmt.torchLoadFile "model.pth",
   QStmt.pure_step]

/-- The raw files the FashionMNIST constructor downloads under `root`
when they are not already present. -/
def datasetFiles (root : String) : List String :=
  [root ++ "/FashionMNIST/raw/train-images-idx3-ubyte",
   root ++ "/FashionMNIST/raw/train-labels-idx1-ubyte",
   root ++ "/FashionMNIST/raw/t10k-images-idx3-ubyte",
   root ++ "/FashionMNIST/raw/t10k-labels-idx1-ubyte"]

/-- Files a statement persists, given which dataset roots already hold the
data: `FashionMNIST(download=True)` downloads exactly when the data is
absent at `root`; `torch.save` writes its file; everything else writes
nothing. Returns the written paths and the updated presence map. -/
def stmtWrites : QStmt → (String → Bool) → List String × (String → Bool)
  | QStmt.fashionMNIST root dl, present =>
      if dl && !(present root) then
        (datasetFiles root, fun r => r == root || present r)
      else ([], present)
  | QStmt.torchSaveFile f, present => ([f], present)
  | QStmt.torchLoadFile _, present => ([], present)
  | QStmt.pure_step, present => ([], present)

/-- All files a statement list persists, in order, threading the dataset
presence map through. -/
def runWrites : List QStmt → (String → Bool) → List String
  | [], _ => []
  | s :: rest, present =>
      (stmtWrites s present).1 ++ runWrites rest (stmtWrites s present).2

/-- The whole quickstart run's persisted writes, as a function of command
line, environment and initial dataset presence. -/
def scriptWrites (argv : List String) (env : String → Option String)
    (present : String → Bool) : List String :=
  runWrites (quickstartScript (quickstartConfig argv env)) present

/-! ## The NeuralNetwork model and its serialization
(quickstart_tutorial.py) -/

/-- The parameters of the `nn.Sequential(Linear(784, 512), ReLU(),
Linear(512, 512), ReLU(), Linear(512, 10))` stack: this is the content of
the model's state dictionary. -/
structure NNParams where
  w1 : Fin 512 → Fin 784 → ℝ
  b1 : Fin 512 → ℝ
  w2 : Fin 512 → Fin 512 → ℝ
  b2 : Fin 512 → ℝ
  w3 : Fin 10 → Fin 512 → ℝ
  b3 : Fin 10 → ℝ

/-- A `NeuralNetwork` module instance: its parameters and its
training/eval mode flag. -/
structure NeuralNetwork where
  params : NNParams
  training : Bool

/-- `model.state_dict()`: the parameter dictionary. -/
def NeuralNetwork.state_dict (m : NeuralNetwork) : NNParams := m.params

/-- `model.load_state_dict(sd)`: replaces every parameter with the loaded
one. -/
def NeuralNetwork.load_state_dict (m : NeuralNetwork) (sd : NNParams) :
    NeuralNetwork :=
  ⟨sd, m.training⟩

/-- `model.eval()`: switches the module to evaluation mode; parameters are
untouched. -/
def NeuralNetwork.evalMode (m : NeuralNetwork) : NeuralNetwork :=
  ⟨m.params, false⟩

/-- The files `torch.save` has serialized: path to saved parameter
dictionary. -/
def SavedFiles : Type := String → Option NNParams

/-- `torch.save(sd, file)`. -/
def torch_save (sd : NNParams) (file : String) (fs : SavedFiles) : SavedFiles :=
  fun g => if g = file then some sd else fs g

/-- `torch.load(file)`. -/
def torch_load (file : String) (fs : SavedFiles) : Option NNParams := fs file

/-- `nn.ReLU()` applied to a vector. -/
def reluVec {n : ℕ} (x : Fin n → ℝ) : Fin n → ℝ :=
  fun i => max (x i) 0

/-- `nn.Linear(n, m)` with weight `w` and bias `b`. -/
def linearLayer {m n : ℕ} (w : Fin m → Fin n → ℝ) (b : Fin m → ℝ)
    (x : Fin n → ℝ) : Fin m → ℝ :=
  fun i => (∑ j, w i j * x j) + b i

/-- `nn.Flatten()` on one (1, 28, 28) image: row-major flattening to 784
features. -/
def flattenImg (x : Fin 1 → Fin 28 → Fin 28 → ℝ) : Fin 784 → ℝ :=
  fun k => x 0 ⟨k.val / 28, by have hk := k.isLt; omega⟩
             ⟨k.val % 28, by have hk := k.isLt; omega⟩

/-- `nn.Softmax(dim=1)` on one row of logits. -/
noncomputable def softmaxRow (z : Fin 10 → ℝ) : Fin 10 → ℝ :=
  fun i => Real.exp (z i) / ∑ j, Real.exp (z j)

/-- `NeuralNetwork.forward` on a single (1, 28, 28) input:
`flatten`, then the linear/ReLU stack, then `softmax`. -/
noncomputable def NeuralNetwork.forward1 (m : NeuralNetwork)
    (x : Fin 1 → Fin 28 → Fin 28 → ℝ) : Fin 10 → ℝ :=
  softmaxRow (linearLayer m.params.w3 m.params.b3
    (reluVec (linearLayer m.params.w2 m.params.b2
      (reluVec (linearLayer m.params.w1 m.params.b1 (flattenImg x))))))

/-- `NeuralNetwork.forward` on a batch of `N` inputs of shape
(1, 28, 28): the result has shape (`N`, 10), one softmax row per input. -/
noncomputable def NeuralNetwork.forward (m : NeuralNetwork) {N : ℕ}
    (x : Fin N → Fin 1 → Fin 28 → Fin 28 → ℝ) : Fin N → Fin 10 → ℝ :=
  fun n => m.forward1 (x n)

/-! ## The evaluation loop `test` (quickstart_tutorial.py) -/

/-- One dataset element as the test dataloader yields it: an image and its
one-hot label (the `target_transform` scatters the class into a length-10
vector). -/
def TestSample : Type := (Fin 1 → Fin 28 → Fin 28 → ℝ) × (Fin 10 → ℝ)

/-- `nn.BCELoss()` on one prediction/target row (mean reduction over the
10 outputs). -/
noncomputable def bce_loss (pred y : Fin 10 → ℝ) : ℝ :=
  -(∑ i, (y i * Real.log (pred i) +
          (1 - y i) * Real.log (1 - pred i))) / 10

/-- `t.argmax(1)` on one row: an index attaining the maximum. -/
noncomputable def argmaxRow (v : Fin 10 → ℝ) : Fin 10 :=
  Classical.choose
    (Finset.exists_max_image Finset.univ v ⟨0, Finset.mem_univ 0⟩)

/-- `loss_fn(pred, y).item()` for one batch: the batch-mean BCE loss. -/
noncomputable def batchLoss (m : NeuralNetwork) (batch : List TestSample) : ℝ :=
  ((batch.map (fun s => bce_loss (m.forward1 s.1) s.2)).sum) / batch.length

/-- `(pred.argmax(1) == y.argmax(1)).type(torch.float).sum().item()` for
one batch. -/
noncomputable def batchCorrect (m : NeuralNetwork) (batch : List TestSample) : ℝ :=
  (batch.countP (fun s =>
    decide (argmaxRow (m.forward1 s.1) = argmaxRow s.2)) : ℕ)

/-- `test(dataloader, model)`: switch to eval mode, run forward passes
under no_grad over every batch accumulating loss and correct counts, and
divide both by the dataset size. Returns the model object as it stands
after the call together with the two metrics. -/
noncomputable def testRun (dl : List (List TestSample)) (m : NeuralNetwork) :
    NeuralNetwork × ℝ × ℝ :=
  let size : ℝ := ((dl.map List.length).sum : ℕ)
  let mEval := m.evalMode
  let stats := dl.foldl
    (fun acc batch => (acc.1 + batchLoss mEval batch,
                       acc.2 + batchCorrect mEval batch)) ((0 : ℝ), (0 : ℝ))
  (mEval, stats.1 / size, stats.2 / size)

/-! ## The training loop `train` as an event trace
(quickstart_tutorial.py) -/

/-- The operations a pass of the training loop can perform. The last three
constructors never occur in the trace the source produces; they exist so
their absence is a statement, not a tautology. -/
inductive TrainEvent where
  | toDevice
  | forwardPass
  | lossComp
  | zeroGrad
  | backwardProp
  | optStep
  | logPrint
  | convergenceCheck
  | schedulerStep
  | failureHandler
deriving DecidableEq

/-- The body of `train` for batch index `batch`, line for line:
`X.to(device), y.to(device)`; `pred = model(X)`;
`loss = loss_fn(pred, y)`; `optimizer.zero_grad()`; `loss.backward()`;
`optimizer.step()`; and a progress print when `batch % 100 == 0`. -/
def batchTrace (batch : Nat) : List TrainEvent :=
  [TrainEvent.toDevice, TrainEvent.forwardPass, TrainEvent.lossComp,
   TrainEvent.zeroGrad, TrainEvent.backwardProp, TrainEvent.optStep] ++
  (if batch % 100 == 0 then [TrainEvent.logPrint] else [])

/-- The full trace of `train` over `numBatches` enumerated batches. -/
def trainTrace (numBatches : Nat) : List TrainEvent :=
  (List.range numBatches).flatMap batchTrace

/-! ## Concrete inputs used by witnesses -/

/-- A one-row labels CSV, as in the tutorial's narration
(`tshirt1.jpg, 0`). -/
def witnessCSV : CSV := ⟨[["tshirt1.jpg", "0"]]⟩

/-- A directory with no image files at all. -/
def emptyImageFS : ImageFS := fun _ => none

/-! ## Theorems -/

theorem gdIter_closed_form (n : Nat) :
    (gdIter n).x1 = (1 - (4 / 5 : ℚ) ^ n) * 3 ∧
    (gdIter n).x2 = (1 - (4 / 5 : ℚ) ^ n) * (-2) ∧
    (gdIter n).g1 = 0 ∧ (gdIter n).g2 = 0 := by
  induction n with
  | zero => simp [gdIter]
  | succ n ih =>
    obtain ⟨hx1, hx2, hg1, hg2⟩ := ih
    refine ⟨?_, ?_, rfl, rfl⟩
    · show (gdLoopBody (gdIter n)).x1 = _
      simp only [gdLoopBody, gdZeroGrad, gdUpdate, gdBackward, gdLr, hx1, hg1]
      ring
    · show (gdLoopBody (gdIter n)).x2 = _
      simp only [gdLoopBody, gdZeroGrad, gdUpdate, gdBackward, gdLr, hx2, hg2]
      ring

/-- C5: the manual gradient-descent loop starts at `(0, 0)`, performs 15
iterations of `x := x - 0.1 * grad f(x)` with the gradient zeroed after
each step, and after iteration `n` the point equals
`(1 - 0.8 ^ (n + 1)) * (3, -2)`; the squared distance to the minimum
`(3, -2)` strictly decreases at every iteration, so the iterates approach
the minimum. -/
theorem gd_loop_closed_form (n : Nat) (h : n < gdNumIters) :
    (gdIter (n + 1)).x1 = (1 - (4 / 5 : ℚ) ^ (n + 1)) * 3 ∧
    (gdIter (n + 1)).x2 = (1 - (4 / 5 : ℚ) ^ (n + 1)) * (-2) ∧
    (gdIter (n + 1)).g1 = 0 ∧ (gdIter (n + 1)).g2 = 0 ∧
    gdSqDist (gdIter (n + 1)) < gdSqDist (gdIter n) := by
  obtain ⟨hx1, hx2, hg1, hg2⟩ := gdIter_closed_form (n + 1)
  obtain ⟨hx1', hx2', _, _⟩ := gdIter_closed_form n
  refine ⟨hx1, hx2, hg1, hg2, ?_⟩
  have hform : ∀ m : Nat, gdSqDist (gdIter m) = 13 * ((4 / 5 : ℚ) ^ m) ^ 2 := by
    intro m
    obtain ⟨h1, h2, _, _⟩ := gdIter_closed_form m
    simp only [gdSqDist, h1, h2]
    ring
  rw [hform n, hform (n + 1)]
  have hlt : ((4 / 5 : ℚ) ^ (n + 1)) ^ 2 < ((4 / 5 : ℚ) ^ n) ^ 2 := by
    have hpow : (4 / 5 : ℚ) ^ (n + 1) < (4 / 5 : ℚ) ^ n := by
      have h45 : (0 : ℚ) < 4 / 5 := by norm_num
      have := pow_lt_pow_right_of_lt_one₀ h45 (by norm_num : (4 / 5 : ℚ) < 1)
        (Nat.lt_succ_self n)
      exact this
    have hnonneg : (0 : ℚ) ≤ (4 / 5 : ℚ) ^ (n + 1) := by positivity
    exact pow_lt_pow_left₀ hpow hnonneg (by norm_num)
  linarith

theorem gd_loop_closed_form_witness :
    0 < gdNumIters ∧
    ((gdIter 1).x1 = (1 - (4 / 5 : ℚ) ^ 1) * 3 ∧
     (gdIter 1).x2 = (1 - (4 / 5 : ℚ) ^ 1) * (-2) ∧
     (gdIter 1).g1 = 0 ∧ (gdIter 1).g2 = 0 ∧
     gdSqDist (gdIter 1) < gdSqDist (gdIter 0)) :=
  ⟨by norm_num [gdNumIters], gd_loop_closed_form 0 (by norm_num [gdNumIters])⟩

/-- C6: gradients accumulate across successive backward calls unless
zeroed: after the first backward call with an all-ones vector, `inp.grad`
equals the single-call gradient `2 * (inp + 1)`; after a second identical
call it equals twice that value; after zeroing and one more call it equals
the single-call gradient again. -/
theorem grad_accumulation :
    gradFirstCall = (fun i j => 2 * (inpMat i j + 1)) ∧
    gradSecondCall = (fun i j => 2 * gradFirstCall i j) ∧
    gradAfterZero = gradFirstCall := by
  refine ⟨?_, ?_, rfl⟩ <;>
    · funext i j
      simp only [gradFirstCall, gradSecondCall, jacBackward, onesMat, outDeriv]
      ring

/-- C1: the claim says `__getitem__(idx)` returns the sample built from
the image file named in CSV row `idx` joined with the dataset's image
directory. The code instead reads `self.root_dir`, an attribute
`__init__` never assigns (it assigns `img_dir`), so on every dataset
built by `__init__` and every index, `__getitem__` raises AttributeError
before loading anything. -/
theorem getitem_always_attribute_error (labels : CSV) (dir : String)
    (t : Option (Sample → Sample)) (fs : ImageFS) (idx : Nat) :
    (CustomImageDataset.init labels dir t).getitem fs idx =
      Except.error (PyError.attributeError "CustomImageDataset" "root_dir") :=
  rfl

/-- C7: no operation catches, recovers from or retries a failure: when
`pd.read_csv` fails, `__init__` returns that exact error; when the
`root_dir` attribute lookup, the row lookup, or `read_image` fails inside
`__getitem__`, the raw error comes back unchanged. -/
theorem dataset_errors_propagate_unchanged :
    (∀ (e : PyError) (dir : String) (t : Option (Sample → Sample)),
      CustomImageDataset.initFrom (Except.error e) dir t = Except.error e) ∧
    (∀ (fs : ImageFS) (self : CustomImageDataset) (idx : Nat),
      self.root_dir = none →
      self.getitem fs idx =
        Except.error (PyError.attributeError "CustomImageDataset" "root_dir")) ∧
    (∀ (fs : ImageFS) (self : CustomImageDataset) (idx : Nat) (d : String),
      self.root_dir = some d →
      self.img_labels.rows.get? idx = none →
      self.getitem fs idx = Except.error PyError.indexError) ∧
    (∀ (fs : ImageFS) (self : CustomImageDataset) (idx : Nat) (d : String)
       (row : List String) (c : String),
      self.root_dir = some d →
      self.img_labels.rows.get? idx = some row →
      row.get? 0 = some c →
      fs (os_path_join d c) = none →
      self.getitem fs idx =
        Except.error (PyError.fileNotFound (os_path_join d c))) := by
  refine ⟨fun e dir t => rfl, ?_, ?_, ?_⟩
  · intro fs self idx h
    simp [CustomImageDataset.getitem, CustomImageDataset.getRootDir, h,
      Bind.bind, Except.bind]
  · intro fs self idx d hroot hrow
    rw [List.get?_eq_getElem?] at hrow
    simp [CustomImageDataset.getitem, CustomImageDataset.getRootDir,
      CSV.ilocRow, hroot, hrow, Bind.bind, Except.bind]
  · intro fs self idx d row c hroot hrow hc hfs
    rw [List.get?_eq_getElem?] at hrow hc
    simp [CustomImageDataset.getitem, CustomImageDataset.getRootDir,
      CSV.ilocRow, rowCell0, read_image, hroot, hrow, hc, hfs,
      Bind.bind, Except.bind, Functor.map, Except.map]

theorem dataset_errors_propagate_unchanged_witness :
    CustomImageDataset.initFrom (Except.error (PyError.csvReadError "gone"))
        "imgs" none =
      Except.error (PyError.csvReadError "gone") ∧
    CustomImageDataset.getitem emptyImageFS
        ⟨witnessCSV, "imgs", none, some "imgs"⟩ 0 =
      Except.error (PyError.fileNotFound (os_path_join "imgs" "tshirt1.jpg")) :=
  ⟨dataset_errors_propagate_unchanged.1 (PyError.csvReadError "gone") "imgs" none,
   dataset_errors_propagate_unchanged.2.2.2 emptyImageFS
     ⟨witnessCSV, "imgs", none, some "imgs"⟩ 0 "imgs" ["tshirt1.jpg", "0"]
     "tshirt1.jpg" rfl rfl rfl rfl⟩

/-- C2 counterexample: run from a filesystem where the dataset is not yet
present under "data". The two `FashionMNIST(..., download=True)`
constructions download the raw dataset files, so the run persists more
than just "model.pth". -/
theorem script_writes_more_than_model_file :
    scriptWrites [] (fun _ => none) (fun _ => false) ≠ ["model.pth"] := by
  decide

/-- C2 amended: the only file the script itself serializes is
"model.pth"; in addition, exactly when the FashionMNIST data is not
already present under the hard-coded root "data", the dataset
constructors download the raw dataset files there (once); nothing else is
written. -/
theorem script_writes_characterization (argv : List String)
    (env : String → Option String) (present : String → Bool) :
    scriptWrites argv env present =
      (if present "data" then [] else datasetFiles "data") ++ ["model.pth"] := by
  by_cases h : present "data" = true
  · simp [scriptWrites, runWrites, stmtWrites, quickstartScript,
      quickstartConfig, h]
  · have h' : present "data" = false := by
      cases hb : present "data"
      · rfl
      · exact absurd hb h
    simp [scriptWrites, runWrites, stmtWrites, quickstartScript,
      quickstartConfig, h']

/-- C3: saving the trained model's state dictionary to "model.pth" and
loading that file into a freshly constructed NeuralNetwork yields a model
whose parameters equal the saved ones: save followed by load is a round
trip on the parameter dictionary. -/
theorem save_load_round_trip (trained fresh : NeuralNetwork)
    (fs : SavedFiles) :
    torch_load "model.pth" (torch_save trained.state_dict "model.pth" fs) =
      some trained.state_dict ∧
    (fresh.load_state_dict
        ((torch_load "model.pth"
          (torch_save trained.state_dict "model.pth" fs)).getD
            fresh.state_dict)).state_dict = trained.state_dict := by
  constructor
  · simp [torch_load, torch_save]
  · simp [torch_load, torch_save, NeuralNetwork.load_state_dict,
      NeuralNetwork.state_dict]

/-- C4: for every batch, the train loop performs the forward pass, then
the loss computation, then backward propagation, then exactly one
optimizer step, in that order, each exactly once; and the trace contains
no convergence check, no scheduler step and no failure handler. -/
theorem train_loop_sequence (b : Nat) :
    [TrainEvent.forwardPass, TrainEvent.lossComp, TrainEvent.backwardProp,
      TrainEvent.optStep].Sublist (batchTrace b) ∧
    (batchTrace b).count TrainEvent.forwardPass = 1 ∧
    (batchTrace b).count TrainEvent.lossComp = 1 ∧
    (batchTrace b).count TrainEvent.backwardProp = 1 ∧
    (batchTrace b).count TrainEvent.optStep = 1 ∧
    TrainEvent.convergenceCheck ∉ batchTrace b ∧
    TrainEvent.schedulerStep ∉ batchTrace b ∧
    TrainEvent.failureHandler ∉ batchTrace b := by
  cases hb : (b % 100 == 0) <;> simp only [batchTrace, hb] <;> decide

/-- C8: the quickstart script takes no input from command line or
environment: its configuration is the constant
(root "data", batch size 64, learning rate 1/1000, epochs 5) whatever
`argv` and `env` hold, and two runs over the same filesystem state write
the same files regardless of `argv` and `env`. -/
theorem config_ignores_cli_and_env (argv argv' : List String)
    (env env' : String → Option String) (present : String → Bool) :
    quickstartConfig argv env = ⟨"data", 64, 1 / 1000, 5⟩ ∧
    quickstartConfig argv env = quickstartConfig argv' env' ∧
    scriptWrites argv env present = scriptWrites argv' env' present :=
  ⟨rfl, rfl, rfl⟩

/-- C9: `test` modifies no model parameter: after `test(dataloader,
model)` the model's parameters are exactly what they were before the call
(the evaluation loop only switches to eval mode, runs forward passes under
no_grad and accumulates metrics). -/
theorem test_preserves_params (dl : List (List TestSample))
    (m : NeuralNetwork) :
    (testRun dl m).1.params = m.params :=
  rfl

/-- C10: on every batch of shape (N, 1, 28, 28) the forward pass returns
a (N, 10) result (by the type of `NeuralNetwork.forward`) in which every
row is a softmax output: every entry is non-negative and each row sums
to 1. -/
theorem forward_rows_are_softmax (m : NeuralNetwork) (N : ℕ)
    (x : Fin N → Fin 1 → Fin 28 → Fin 28 → ℝ) (n : Fin N) :
    (∀ i, 0 ≤ m.forward x n i) ∧ (∑ i, m.forward x n i) = 1 := by
  have key : ∀ z : Fin 10 → ℝ,
      (∀ i, 0 ≤ softmaxRow z i) ∧ (∑ i, softmaxRow z i) = 1 := by
    intro z
    have hpos : (0 : ℝ) < ∑ j, Real.exp (z j) :=
      Finset.sum_pos (fun j _ => Real.exp_pos (z j)) ⟨0, Finset.mem_univ 0⟩
    constructor
    · intro i
      exact div_nonneg (Real.exp_pos (z i)).le hpos.le
    · simp only [softmaxRow]
      rw [← Finset.sum_div]
      exact div_self hpos.ne'
  exact key _
